import Mathlib

/-!
Verification development for the anomaly-detection core of the
cloud-finops-toolkit repository: the statistical baseline detector
(src/anomaly/detectors/baseline_detector.py), the change-point detector
(src/anomaly/detectors/changepoint_detector.py) and the ensemble
correlator (src/anomaly/detectors/ensemble_detector.py).

Modelling conventions:
* Numeric values are rationals (the Python code computes with floats;
  the claims under consideration concern exact comparisons and guards,
  which ℚ models faithfully).
* Timestamps are day numbers in ℤ (the series has date granularity, and
  the only timestamp arithmetic is day differences).
* pandas NaN results of rolling aggregations (too few periods, or a
  sample standard deviation of fewer than two points) are modelled as
  `Option.none`; the detection loops skip such rows exactly as the code
  tests `pd.isna`.
* The square root inside the rolling standard deviation is irrational in
  general, so the model is parametrised by a function `sq : ℚ → ℚ`
  standing for the square root applied to the rolling sample variance.
  Theorems quantify over `sq`, assuming at most `sq 0 = 0` (true of the
  real square root); so every theorem proved here holds in particular
  for the real computation.
* The optional `ruptures` dependency (PELT solver) is external code; it
  is modelled as an environment parameter `Option (List ℚ → List ℕ)`:
  `none` means the import failed (the code then runs its fallback), and
  `some pelt` means the solver is available and returns the break
  indices `pelt signal`.
* Log messages and the formatted `message` strings of alerts/events are
  observability output not referenced by any claim; they are omitted
  from the records.
-/

/-- A row of the input frame: a date (day number), the numeric value of
the analysed column, and the string-valued dimension columns present in
the frame, as an association list. -/
structure Row where
  date : ℤ
  value : ℚ
  dims : List (String × String)
deriving DecidableEq, Repr, Inhabited

/-- Insert a row into a list sorted by date (ascending). -/
def insertByDate (r : Row) : List Row → List Row
  | [] => [r]
  | s :: rest => if r.date ≤ s.date then r :: s :: rest else s :: insertByDate r rest

/-- Sort rows ascending by date; models `time_series.sort_values("date")`. -/
def sortByDate : List Row → List Row
  | [] => []
  | r :: rest => insertByDate r (sortByDate rest)

/-- Arithmetic mean of a list, `np.mean` / pandas `mean` on a full window. -/
def listMean (l : List ℚ) : ℚ := l.sum / (l.length : ℚ)

/-- Sample variance (`ddof = 1`, the pandas default for `rolling().std()`). -/
def sampleVar (l : List ℚ) : ℚ :=
  ((l.map (fun x => (x - listMean l) ^ 2)).sum) / ((l.length : ℚ) - 1)

/-- The trailing window of length at most `w` ending at index `i`,
as used by `pandas.rolling(window=w)`. -/
def windowSlice (w : ℕ) (vals : List ℚ) (i : ℕ) : List ℚ :=
  (vals.take (i + 1)).drop (i + 1 - w)

/-- `rolling(window=w, min_periods=minp).mean()` at index `i`;
`none` models the NaN produced when the window holds fewer than
`minp` points. -/
def rollingMean (w minp : ℕ) (vals : List ℚ) (i : ℕ) : Option ℚ :=
  let win := windowSlice w vals i
  if minp ≤ win.length then some (listMean win) else none

/-- `rolling(window=w, min_periods=minp).std()` at index `i`; the
sample standard deviation is NaN when the window holds fewer than
`minp` points or fewer than two points (`ddof = 1`), modelled as
`none`.  `sq` stands for the square root applied to the sample
variance. -/
def rollingStd (sq : ℚ → ℚ) (w minp : ℕ) (vals : List ℚ) (i : ℕ) : Option ℚ :=
  let win := windowSlice w vals i
  if minp ≤ win.length ∧ 2 ≤ win.length then some (sq (sampleVar win)) else none

/-- Anomaly alert record, from the `AnomalyAlert` dataclass
(baseline_detector.py lines 16-28); the formatted `message` field is
omitted. -/
structure AnomalyAlert where
  timestamp : ℤ
  metric_name : String
  actual_value : ℚ
  expected_value : ℚ
  deviation_percent : ℚ
  severity : String
  confidence : ℚ
  dimensions : List (String × String)
deriving DecidableEq, Repr, Inhabited

namespace BaselineDetector

/-- The sensitivity → standard-deviation-multiplier table from the
`BaselineDetector` constructor, including its `.get(sensitivity, 3.0)`
default for unknown sensitivity strings. -/
def std_threshold_map (sensitivity : String) : ℚ :=
  if sensitivity = "low" then 4
  else if sensitivity = "medium" then 3
  else if sensitivity = "high" then 2
  else if sensitivity = "very_high" then 3 / 2
  else 3

/-- Configuration state of a `BaselineDetector` instance after
construction: `baseline_days`, the resolved `std_threshold`, and
`min_data_points`. -/
structure Config where
  baseline_days : ℕ
  std_threshold : ℚ
  min_data_points : ℕ
deriving DecidableEq, Repr

/-- The `BaselineDetector.__init__` constructor. -/
def mk (baseline_days : ℕ) (sensitivity : String) (min_data_points : ℕ) : Config :=
  ⟨baseline_days, std_threshold_map sensitivity, min_data_points⟩

/-- The detector built with all default constructor arguments
(`baseline_days=14`, `sensitivity="medium"`, `min_data_points=7`). -/
def defaultConfig : Config := mk 14 ("medium") 7

/-- `BaselineDetector._calculate_severity` (lines 158-167). -/
def calculate_severity (deviation_percent : ℚ) : String :=
  if deviation_percent ≥ 100 then "critical"
  else if deviation_percent ≥ 50 then "high"
  else if deviation_percent ≥ 25 then "medium"
  else "low"

/-- The fixed recognised dimension column list of
`BaselineDetector._extract_dimensions` (line 174). -/
def dimensionCols : List String := ["service", "team", "environment", "project", "region"]

/-- `BaselineDetector._extract_dimensions` (lines 169-179): keep the
recognised dimension columns present on the row, in the fixed order. -/
def extract_dimensions (r : Row) : List (String × String) :=
  dimensionCols.filterMap (fun c => (r.dims.lookup c).map (fun v => (c, v)))

/-- The body of the per-row loop of `BaselineDetector.detect`
(lines 113-154): skip the row unless the rolling mean and rolling
standard deviation are both available, test the value against the
`mean ± threshold·std` envelope, and build the alert with deviation,
severity and confidence exactly as in the source. -/
def anomalyAt (cfg : Config) (sq : ℚ → ℚ) (value_col : String)
    (sorted : List Row) (vals : List ℚ) (i : ℕ) : Option AnomalyAlert :=
  match rollingMean cfg.baseline_days cfg.min_data_points vals i with
  | none => none
  | some mean =>
    match rollingStd sq cfg.baseline_days cfg.min_data_points vals i with
    | none => none
    | some std =>
      let actual := vals.getD i 0
      let upper := mean + cfg.std_threshold * std
      let lower := mean - cfg.std_threshold * std
      if actual > upper ∨ actual < lower then
        let deviation := if mean > 0 then (actual - mean) / mean * 100 else 0
        let confidence :=
          if actual > upper then
            if upper > mean then min 1 ((actual - upper) / (upper - mean)) else 1
          else
            if mean > lower then min 1 ((lower - actual) / (mean - lower)) else 1
        some ⟨(sorted.getD i default).date, value_col, actual, mean, deviation,
              calculate_severity |deviation|, confidence, extract_dimensions (sorted.getD i default)⟩
      else none

/-- `BaselineDetector.detect` (lines 61-156): return `[]` when the
series has fewer than `min_data_points` rows, otherwise sort by date,
compute the rolling statistics and collect the alerts of the per-row
loop in order. -/
def detect (cfg : Config) (sq : ℚ → ℚ) (value_col : String)
    (time_series : List Row) : List AnomalyAlert :=
  if time_series.length < cfg.min_data_points then []
  else
    let sorted := sortByDate time_series
    let vals := sorted.map (fun r => r.value)
    (List.range sorted.length).filterMap (anomalyAt cfg sq value_col sorted vals)

/-- The dimension value of a row under a grouping column, as pandas
reads the cell `row[dimension_col]` (a cell absent from the row is the
NaN string, which `str()` renders as "nan"). -/
def dimValue (dimension_col : String) (r : Row) : String :=
  (r.dims.lookup dimension_col).getD ("nan")

/-- Distinct values in first-occurrence order, as
`pandas.Series.unique` returns them. -/
def uniqueFirst (l : List String) : List String :=
  l.foldl (fun acc x => if x ∈ acc then acc else acc ++ [x]) []

/-- `BaselineDetector.detect_by_dimension` (lines 181-210): for each
distinct value of the dimension column in first-occurrence order, take
its partition; when the partition has at least `min_data_points` rows,
run `detect` on it, and record the pair only when the alert list is
nonempty (`if anomalies:` on line 204). -/
def detect_by_dimension (cfg : Config) (sq : ℚ → ℚ)
    (dimension_col value_col : String) (time_series : List Row) :
    List (String × List AnomalyAlert) :=
  (uniqueFirst (time_series.map (dimValue dimension_col))).filterMap (fun v =>
    let subset := time_series.filter (fun r => dimValue dimension_col r == v)
    if cfg.min_data_points ≤ subset.length then
      let anomalies := detect cfg sq value_col subset
      if anomalies.isEmpty then none else some (v, anomalies)
    else none)

/-- `BaselineDetector.calculate_cost_forecast` (lines 212-244): raise
`ValueError` below `min_data_points`; otherwise extrapolate linearly
from the last value using the mean day-over-day difference of the
trailing 7 points, producing `days_ahead` pairs of (date, forecast). -/
def calculate_cost_forecast (cfg : Config) (time_series : List Row)
    (days_ahead : ℕ) : Except String (List (ℤ × ℚ)) :=
  if time_series.length < cfg.min_data_points then
    Except.error ("Insufficient data for forecasting")
  else
    let sorted := sortByDate time_series
    let vals := sorted.map (fun r => r.value)
    let recent := vals.drop (vals.length - 7)
    let diffs := List.zipWith (fun a b => a - b) (recent.drop 1) recent
    let daily_change := listMean diffs
    let last_date := ((sorted.getLast?).map (fun r => r.date)).getD 0
    let last_value := vals.getLast?.getD 0
    Except.ok ((List.range days_ahead).map (fun i =>
      (last_date + (i : ℤ) + 1, last_value + ((i : ℚ) + 1) * daily_change)))

end BaselineDetector

/-- Change-point event record: the dictionary built by
`ChangepointDetector.detect` (lines 93-103) and by its fallback
(lines 143-153); the formatted `message` field is omitted. -/
structure ChangePointEvent where
  date : ℤ
  index : ℕ
  before_mean : ℚ
  after_mean : ℚ
  change_percent : ℚ
  change_type : String
  severity : String
deriving DecidableEq, Repr, Inhabited

namespace ChangepointDetector

/-- Configuration state of a `ChangepointDetector` instance:
`min_segment_length` and the PELT `penalty` (the penalty is consumed
only by the external solver). -/
structure Config where
  min_segment_length : ℕ
  penalty : ℚ
deriving DecidableEq, Repr

/-- The detector built with default constructor arguments
(`min_segment_length=3`, `penalty=10.0`). -/
def defaultConfig : Config := ⟨3, 10⟩

/-- `ChangepointDetector._calculate_change_severity` (lines 158-167). -/
def calculate_change_severity (change_percent : ℚ) : String :=
  if change_percent ≥ 100 then "critical"
  else if change_percent ≥ 50 then "high"
  else if change_percent ≥ 25 then "medium"
  else "low"

/-- The event-building loop of `ChangepointDetector.detect`
(lines 75-106): for each break index, skip 0 and out-of-range indices,
average up to 7 points on each side, and compute change percent
(guarded to 0 for a non-positive before-mean), direction and
severity. -/
def buildChangePointEvents (dates : List ℤ) (signal : List ℚ)
    (change_points : List ℕ) : List ChangePointEvent :=
  change_points.filterMap (fun cp =>
    if cp = 0 ∨ signal.length ≤ cp then none
    else
      let before_values := (signal.take cp).drop (cp - 7)
      let after_values := (signal.drop cp).take 7
      let before_mean := if 0 < before_values.length then listMean before_values else 0
      let after_mean := if 0 < after_values.length then listMean after_values else 0
      let change_percent :=
        if before_mean > 0 then (after_mean - before_mean) / before_mean * 100 else 0
      some ⟨dates.getD cp 0, cp, before_mean, after_mean, change_percent,
            if change_percent > 0 then "increase" else "decrease",
            calculate_change_severity |change_percent|⟩)

/-- One iteration of the index loop of
`ChangepointDetector._simple_change_detection` (lines 130-154): skip
when either moving average is NaN or the 30-point average is zero;
otherwise flag the index when the deviation of the 7-point average from
the 30-point average exceeds 30% in magnitude and the index is more
than 7 positions past the previously flagged index (the spacing bound 7
is hard-coded on line 142). -/
def fallbackStep (dates : List ℤ) (vals : List ℚ)
    (events : List ChangePointEvent) (idx : ℕ) : List ChangePointEvent :=
  match rollingMean 7 4 vals idx with
  | none => events
  | some ma7 =>
    match rollingMean 30 14 vals idx with
    | none => events
    | some ma30 =>
      if ma30 = 0 then events
      else
        let deviation := (ma7 - ma30) / ma30 * 100
        if |deviation| > 30 then
          match events.getLast? with
          | none =>
            events ++ [⟨dates.getD idx 0, idx, ma30, ma7, deviation,
                        if deviation > 0 then "increase" else "decrease",
                        calculate_change_severity |deviation|⟩]
          | some last =>
            if idx - last.index > 7 then
              events ++ [⟨dates.getD idx 0, idx, ma30, ma7, deviation,
                          if deviation > 0 then "increase" else "decrease",
                          calculate_change_severity |deviation|⟩]
            else events
        else events

/-- `ChangepointDetector._simple_change_detection` (lines 110-156): the
fallback detector; empty below 14 points, otherwise fold the flagging
step over the indices 7, 8, …, n−1 of the sorted series. -/
def simple_change_detection (time_series : List Row) : List ChangePointEvent :=
  if time_series.length < 14 then []
  else
    let sorted := sortByDate time_series
    let vals := sorted.map (fun r => r.value)
    let dates := sorted.map (fun r => r.date)
    (List.range' 7 (time_series.length - 7)).foldl (fallbackStep dates vals) []

/-- `ChangepointDetector.detect` (lines 30-108).  The environment
parameter models the `import ruptures` attempt: `none` is the
`ImportError` branch, which calls the fallback immediately (before any
length check); `some pelt` is the solver, whose returned break list has
a trailing end-of-series marker removed and is then turned into
events.  In the solver branch a series shorter than
`2 · min_segment_length` yields `[]`. -/
def detect (env : Option (List ℚ → List ℕ)) (cfg : Config)
    (time_series : List Row) : List ChangePointEvent :=
  match env with
  | none => simple_change_detection time_series
  | some pelt =>
    if time_series.length < cfg.min_segment_length * 2 then []
    else
      let sorted := sortByDate time_series
      let signal := sorted.map (fun r => r.value)
      let dates := sorted.map (fun r => r.date)
      let cps := pelt signal
      let cps := if cps.getLast? = some signal.length then cps.dropLast else cps
      buildChangePointEvents dates signal cps

/-- Modelled from the spec: the flagging rule of the fallback change
detection as §4.2 step 3 words it, parametric in the spacing bound
`min_segment_length` ("the index is more than the minimum segment
length away from the previously flagged index").  The moving averages,
the 30% trigger and the under-14-points guard follow the code; only the
spacing bound is the spec's.  The list collects the flagged indices. -/
def specStep (min_segment_length : ℕ) (vals : List ℚ)
    (flagged : List ℕ) (idx : ℕ) : List ℕ :=
  match rollingMean 7 4 vals idx with
  | none => flagged
  | some ma7 =>
    match rollingMean 30 14 vals idx with
    | none => flagged
    | some ma30 =>
      if ma30 = 0 then flagged
      else
        let deviation := (ma7 - ma30) / ma30 * 100
        if |deviation| > 30 then
          match flagged.getLast? with
          | none => flagged ++ [idx]
          | some j => if idx - j > min_segment_length then flagged ++ [idx] else flagged
        else flagged

/-- Modelled from the spec: the indices the fallback should flag
according to §4.2 step 3, with the spec's `min_segment_length` spacing
bound. -/
def specFallbackIndices (min_segment_length : ℕ) (time_series : List Row) : List ℕ :=
  if time_series.length < 14 then []
  else
    let sorted := sortByDate time_series
    let vals := sorted.map (fun r => r.value)
    (List.range' 7 (time_series.length - 7)).foldl (specStep min_segment_length vals) []

end ChangepointDetector

/-- High-confidence correlation record: the dictionary built by
`EnsembleDetector._find_overlapping_anomalies` (lines 100-112); the
constant `type` tag and the formatted `message` are omitted.  All data
fields are copied from the baseline alert. -/
structure HighConfidenceEvent where
  date : ℤ
  baseline_severity : String
  baseline_deviation : ℚ
  actual_value : ℚ
  expected_value : ℚ
  confidence : ℚ
  dimensions : List (String × String)
deriving DecidableEq, Repr, Inhabited

namespace EnsembleDetector

/-- Build the high-confidence record from the matched baseline alert
(ensemble_detector.py lines 100-112). -/
def mkHighConfidence (a : AnomalyAlert) : HighConfidenceEvent :=
  ⟨a.timestamp, a.severity, a.deviation_percent, a.actual_value,
   a.expected_value, a.confidence, a.dimensions⟩

/-- Whether a change-point date is within three days of the alert
timestamp: `abs((anomaly.timestamp - cp_date).days) <= 3` on line 97. -/
def within3Days (t d : ℤ) : Bool := decide ((t - d).natAbs ≤ 3)

/-- The inner scan of `_find_overlapping_anomalies` (lines 96-113): walk
the change-point dates in order, and on the first one within three days
of the alert build the high-confidence record and stop (`break`). -/
def scanChangepoints (a : AnomalyAlert) : List ℤ → Option HighConfidenceEvent
  | [] => none
  | d :: rest =>
    if within3Days a.timestamp d then some (mkHighConfidence a)
    else scanChangepoints a rest

/-- `EnsembleDetector._find_overlapping_anomalies` (lines 82-115): map
the events to their dates, then for each baseline alert in order emit
at most one high-confidence record via the inner scan. -/
def find_overlapping_anomalies (baseline_anomalies : List AnomalyAlert)
    (changepoint_events : List ChangePointEvent) : List HighConfidenceEvent :=
  let changepoint_dates := changepoint_events.map (fun e => e.date)
  baseline_anomalies.filterMap (fun a => scanChangepoints a changepoint_dates)

/-- The result dictionary of `EnsembleDetector.detect` (lines 65-72). -/
structure Result where
  baseline_anomalies : List AnomalyAlert
  changepoint_events : List ChangePointEvent
  high_confidence_anomalies : List HighConfidenceEvent
  total_anomalies : ℕ
  total_changepoints : ℕ
  high_confidence_count : ℕ
deriving DecidableEq, Repr

/-- `EnsembleDetector.detect` (lines 39-80): run the two detectors
independently on the series, correlate, and return the lists with
their counts.  `sq` and `env` are the modelling parameters of the two
sub-detectors (square root, solver availability). -/
def detect (sq : ℚ → ℚ) (env : Option (List ℚ → List ℕ))
    (bcfg : BaselineDetector.Config) (ccfg : ChangepointDetector.Config)
    (value_col : String) (time_series : List Row) : Result :=
  let baseline_anomalies := BaselineDetector.detect bcfg sq value_col time_series
  let changepoint_events := ChangepointDetector.detect env ccfg time_series
  let high_confidence := find_overlapping_anomalies baseline_anomalies changepoint_events
  ⟨baseline_anomalies, changepoint_events, high_confidence,
   baseline_anomalies.length, changepoint_events.length, high_confidence.length⟩

end EnsembleDetector

/-- A concrete stand-in for the square root used in witnesses and
counterexamples below.  The series they exercise are chosen so that
every rolling window is constant, hence every sample variance is 0;
the real square root maps 0 to 0, and so does this function, so on
those inputs the model with `zeroSqrt` computes exactly what the code
computes. -/
def zeroSqrt : ℚ → ℚ := fun _ => 0

/-- A row with the given date and value and no dimension columns. -/
def mkRow (d : ℤ) (v : ℚ) : Row := ⟨d, v, []⟩

/-! Concrete series used by witnesses and counterexamples. -/

/-- Six days at 10 followed by a spike to 100. -/
def spikeRows7 : List Row :=
  [mkRow 0 10, mkRow 1 10, mkRow 2 10, mkRow 3 10, mkRow 4 10, mkRow 5 10, mkRow 6 100]

/-- A constant series of seven points. -/
def constRows7 : List Row :=
  [mkRow 0 5, mkRow 1 5, mkRow 2 5, mkRow 3 5, mkRow 4 5, mkRow 5 5, mkRow 6 5]

/-- Six days at −10 followed by a spike to 50: the rolling mean at the
spike is negative. -/
def negSpikeRows7 : List Row :=
  [mkRow 0 (-10), mkRow 1 (-10), mkRow 2 (-10), mkRow 3 (-10), mkRow 4 (-10),
   mkRow 5 (-10), mkRow 6 50]

/-- A three-point series, below the default minimum of seven. -/
def rows3 : List Row := [mkRow 0 1, mkRow 1 2, mkRow 2 3]

/-- Fourteen days at 100 followed by five days at 1000: the fallback
change detection fires at index 14, and the trigger condition still
holds at index 18. -/
def stepRows19 : List Row :=
  (List.range 14).map (fun i => mkRow (i : ℤ) 100) ++
  (List.range 5).map (fun i => mkRow ((i : ℤ) + 14) 1000)

/-- The negation of `stepRows19`: all costs negative, so the 30-point
moving average at index 14 is negative. -/
def negStepRows19 : List Row :=
  (List.range 14).map (fun i => mkRow (i : ℤ) (-100)) ++
  (List.range 5).map (fun i => mkRow ((i : ℤ) + 14) (-1000))

/-- Seven constant rows all tagged with the same service dimension. -/
def svcRows7 : List Row :=
  (List.range 7).map (fun i => ⟨(i : ℤ), 5, [("service", "svcA")]⟩)

/-- Rank of a severity string under the ordering
low < medium < high < critical. -/
def sevRank (s : String) : ℕ :=
  if s = "medium" then 1
  else if s = "high" then 2
  else if s = "critical" then 3
  else 0

/-!  General lemmas about the embedded operations.  Rational arithmetic
is unsealed so that `decide` can evaluate the model on the concrete
series above.  -/

unseal Rat.add Rat.mul Rat.inv Rat.sub

theorem mem_insertByDate (x r : Row) (l : List Row) :
    x ∈ insertByDate r l ↔ x = r ∨ x ∈ l := by
  induction l with
  | nil => simp [insertByDate]
  | cons s rest ih =>
    by_cases h : r.date ≤ s.date
    · simp [insertByDate, h]
    · simp [insertByDate, h, ih]
      tauto

theorem mem_sortByDate (x : Row) (l : List Row) : x ∈ sortByDate l ↔ x ∈ l := by
  induction l with
  | nil => simp [sortByDate]
  | cons r rest ih =>
    simp [sortByDate, mem_insertByDate, ih]

theorem listSum_const (l : List ℚ) (c : ℚ) (hc : ∀ x ∈ l, x = c) :
    l.sum = (l.length : ℚ) * c := by
  induction l with
  | nil => simp
  | cons x rest ih =>
    have hx : x = c := hc x (by simp)
    have hr : rest.sum = (rest.length : ℚ) * c :=
      ih (fun y hy => hc y (by simp [hy]))
    simp [hx, hr]
    ring

theorem listMean_const (l : List ℚ) (c : ℚ) (hc : ∀ x ∈ l, x = c) (hne : l ≠ []) :
    listMean l = c := by
  have hsum : l.sum = (l.length : ℚ) * c := listSum_const l c hc
  have hlen : (l.length : ℚ) ≠ 0 := by
    have : 0 < l.length := List.length_pos.mpr hne
    exact_mod_cast Nat.pos_iff_ne_zero.mp this
  rw [listMean, hsum, mul_comm, mul_div_assoc, div_self hlen, mul_one]

theorem sampleVar_const (l : List ℚ) (c : ℚ) (hc : ∀ x ∈ l, x = c) :
    sampleVar l = 0 := by
  rcases eq_or_ne l [] with rfl | hne
  · simp [sampleVar]
  · have hmean := listMean_const l c hc hne
    have hz : (l.map (fun x => (x - listMean l) ^ 2)).sum = 0 := by
      apply List.sum_eq_zero
      intro y hy
      obtain ⟨x, hx, rfl⟩ := List.mem_map.mp hy
      rw [hc x hx, hmean]
      ring
    rw [sampleVar, hz, zero_div]

theorem mem_windowSlice (w : ℕ) (vals : List ℚ) (i : ℕ) (x : ℚ)
    (hx : x ∈ windowSlice w vals i) : x ∈ vals :=
  List.mem_of_mem_take (List.mem_of_mem_drop hx)

/-- C1: every anomaly alert produced by `BaselineDetector.detect` has a
confidence in the closed interval [0,1]: the confidence is the distance
beyond the breached bound normalised by the distance from that bound to
the rolling mean, clamped above at 1 by `min`, and defined as 1 when
the normalising distance is not positive; both factors of the quotient
are positive whenever it is computed. -/
theorem baseline_confidence_unit_interval (cfg : BaselineDetector.Config)
    (sq : ℚ → ℚ) (value_col : String) (time_series : List Row) (a : AnomalyAlert)
    (ha : a ∈ BaselineDetector.detect cfg sq value_col time_series) :
    0 ≤ a.confidence ∧ a.confidence ≤ 1 := by
  unfold BaselineDetector.detect at ha
  split at ha
  · exact absurd ha (List.not_mem_nil a)
  · obtain ⟨i, hi, hf⟩ := List.mem_filterMap.mp ha
    unfold BaselineDetector.anomalyAt at hf
    split at hf
    · simp at hf
    · split at hf
      · simp at hf
      · dsimp only at hf
        split at hf
        · rename_i hanom
          injection hf with hf
          subst hf
          dsimp only
          constructor
          · split
            · split
              · exact le_min (by norm_num) (div_nonneg (by linarith) (by linarith))
              · norm_num
            · rcases hanom with h | h
              · exact absurd h (by assumption)
              · split
                · exact le_min (by norm_num) (div_nonneg (by linarith) (by linarith))
                · norm_num
          · split
            · split
              · exact min_le_left 1 _
              · norm_num
            · split
              · exact min_le_left 1 _
              · norm_num
        · simp at hf

/-- C1 witness: the spike series produces an alert, and its confidence
lies in [0,1]. -/
theorem baseline_confidence_unit_interval_witness :
    0 ≤ ((BaselineDetector.detect BaselineDetector.defaultConfig zeroSqrt ("cost")
        spikeRows7).getD 0 default).confidence ∧
    ((BaselineDetector.detect BaselineDetector.defaultConfig zeroSqrt ("cost")
        spikeRows7).getD 0 default).confidence ≤ 1 :=
  baseline_confidence_unit_interval BaselineDetector.defaultConfig zeroSqrt ("cost")
    spikeRows7 _ (by decide)

/-- On a value list all equal to `c`, the per-row loop body of
`BaselineDetector.detect` produces no alert at any index: the computed
window is constant, so its mean is `c`, its sample variance 0, both
envelope bounds equal `c`, and the strict outside test fails. -/
theorem anomalyAt_eq_none_of_const (cfg : BaselineDetector.Config) (sq : ℚ → ℚ)
    (value_col : String) (sorted : List Row) (vals : List ℚ) (i : ℕ) (c : ℚ)
    (hsq : sq 0 = 0) (hvals : ∀ x ∈ vals, x = c) (hilen : i < vals.length) :
    BaselineDetector.anomalyAt cfg sq value_col sorted vals i = none := by
  unfold BaselineDetector.anomalyAt
  cases hmean : rollingMean cfg.baseline_days cfg.min_data_points vals i with
  | none => rfl
  | some mean =>
    cases hstd : rollingStd sq cfg.baseline_days cfg.min_data_points vals i with
    | none => rfl
    | some std =>
      dsimp only
      unfold rollingMean at hmean
      unfold rollingStd at hstd
      dsimp only at hmean hstd
      split at hmean
      case isFalse => simp at hmean
      case isTrue =>
        injection hmean with hmean
        split at hstd
        case isFalse => simp at hstd
        case isTrue hcond =>
          injection hstd with hstd
          have hwc : ∀ x ∈ windowSlice cfg.baseline_days vals i, x = c :=
            fun x hx => hvals x (mem_windowSlice _ _ _ _ hx)
          have hwne : windowSlice cfg.baseline_days vals i ≠ [] := by
            intro h
            rw [h] at hcond
            simp at hcond
          have hmc : mean = c := by rw [← hmean]; exact listMean_const _ c hwc hwne
          have hs0 : std = 0 := by
            rw [← hstd, sampleVar_const _ c hwc, hsq]
          have hac : vals.getD i 0 = c := by
            rw [List.getD_eq_getElem _ 0 hilen]
            exact hvals _ (List.getElem_mem hilen)
          rw [hac, hmc, hs0]
          rw [if_neg]
          push_neg
          constructor <;> simp

/-- C2: a constant-valued series (under any square-root model that maps
0 to 0, as the real square root does) produces no alerts: every
computed window has mean equal to the constant and sample variance 0,
so both envelope bounds equal the value and the strict outside test
fails at every point. -/
theorem baseline_detect_constant_empty (cfg : BaselineDetector.Config)
    (sq : ℚ → ℚ) (value_col : String) (time_series : List Row) (c : ℚ)
    (hsq : sq 0 = 0) (hconst : ∀ r ∈ time_series, r.value = c)
    (hlen : cfg.min_data_points ≤ time_series.length) :
    BaselineDetector.detect cfg sq value_col time_series = [] := by
  unfold BaselineDetector.detect
  rw [if_neg (by omega)]
  dsimp only
  rw [List.filterMap_eq_nil_iff]
  intro i hi
  have hvals : ∀ x ∈ (sortByDate time_series).map (fun r => r.value), x = c := by
    intro x hx
    obtain ⟨r, hr, rfl⟩ := List.mem_map.mp hx
    exact hconst r ((mem_sortByDate r time_series).mp hr)
  have hilen : i < ((sortByDate time_series).map (fun r => r.value)).length := by
    rw [List.length_map]
    exact List.mem_range.mp hi
  exact anomalyAt_eq_none_of_const cfg sq value_col (sortByDate time_series) _ i c
    hsq hvals hilen

/-- C2 witness: the constant seven-point series meets the minimum and
yields no alerts. -/
theorem baseline_detect_constant_empty_witness :
    BaselineDetector.detect BaselineDetector.defaultConfig zeroSqrt ("cost")
      constRows7 = [] :=
  baseline_detect_constant_empty BaselineDetector.defaultConfig zeroSqrt ("cost")
    constRows7 5 rfl (by decide) (by decide)

/-- C7: a series with fewer points than `min_data_points` makes
`BaselineDetector.detect` return the empty list; the guard precedes
every other computation (including the date-column validation), so no
exception path is reachable. -/
theorem baseline_detect_insufficient_empty (cfg : BaselineDetector.Config)
    (sq : ℚ → ℚ) (value_col : String) (time_series : List Row)
    (h : time_series.length < cfg.min_data_points) :
    BaselineDetector.detect cfg sq value_col time_series = [] := by
  unfold BaselineDetector.detect
  rw [if_pos h]

/-- C7 witness: three points against the default minimum of seven. -/
theorem baseline_detect_insufficient_empty_witness :
    BaselineDetector.detect BaselineDetector.defaultConfig zeroSqrt ("cost")
      rows3 = [] :=
  baseline_detect_insufficient_empty BaselineDetector.defaultConfig zeroSqrt ("cost")
    rows3 (by decide)

/-- C10: below `min_data_points`, `calculate_cost_forecast` raises
`ValueError` ("Insufficient data for forecasting") instead of returning
an empty result, while `detect` returns an empty list under the same
insufficiency condition. -/
theorem forecast_insufficient_raises (cfg : BaselineDetector.Config)
    (sq : ℚ → ℚ) (value_col : String) (time_series : List Row) (days_ahead : ℕ)
    (h : time_series.length < cfg.min_data_points) :
    BaselineDetector.calculate_cost_forecast cfg time_series days_ahead =
      Except.error ("Insufficient data for forecasting") ∧
    BaselineDetector.detect cfg sq value_col time_series = [] := by
  constructor
  · unfold BaselineDetector.calculate_cost_forecast
    rw [if_pos h]
  · unfold BaselineDetector.detect
    rw [if_pos h]

/-- C10 witness: three points against the default minimum of seven. -/
theorem forecast_insufficient_raises_witness :
    BaselineDetector.calculate_cost_forecast BaselineDetector.defaultConfig rows3 7 =
      Except.error ("Insufficient data for forecasting") ∧
    BaselineDetector.detect BaselineDetector.defaultConfig zeroSqrt ("cost") rows3 = [] :=
  forecast_insufficient_raises BaselineDetector.defaultConfig zeroSqrt ("cost")
    rows3 7 (by decide)

/-- C5: for a non-negative magnitude the shared severity table holds
(critical iff ≥ 100, high iff in [50,100), medium iff in [25,50), low
iff < 25), the two detectors' severity functions agree at every
magnitude, and severity is monotone non-decreasing in the magnitude
under low < medium < high < critical. -/
theorem severity_table_shared_monotone (m1 m2 : ℚ) (h0 : 0 ≤ m1) (h12 : m1 ≤ m2) :
    ((BaselineDetector.calculate_severity m1 = "critical" ↔ 100 ≤ m1) ∧
     (BaselineDetector.calculate_severity m1 = "high" ↔ 50 ≤ m1 ∧ m1 < 100) ∧
     (BaselineDetector.calculate_severity m1 = "medium" ↔ 25 ≤ m1 ∧ m1 < 50) ∧
     (BaselineDetector.calculate_severity m1 = "low" ↔ m1 < 25)) ∧
    ChangepointDetector.calculate_change_severity m1 =
      BaselineDetector.calculate_severity m1 ∧
    sevRank (BaselineDetector.calculate_severity m1) ≤
      sevRank (BaselineDetector.calculate_severity m2) := by
  constructor
  · simp only [BaselineDetector.calculate_severity]
    refine ⟨?_, ?_, ?_, ?_⟩ <;>
      (split_ifs <;>
        (constructor <;> intro h <;>
          first
            | rfl
            | linarith
            | exact absurd h (by decide)
            | (refine ⟨?_, ?_⟩ <;> linarith)))
  · refine ⟨rfl, ?_⟩
    simp only [BaselineDetector.calculate_severity]
    split_ifs <;> first | decide | (exfalso; linarith)

/-- The inner event scan of the correlation is a first-match search:
it returns the high-confidence record exactly when some date in the
list is within three days, built from the alert alone. -/
theorem scanChangepoints_eq_find (a : AnomalyAlert) (ds : List ℤ) :
    EnsembleDetector.scanChangepoints a ds =
      (ds.find? (fun d => EnsembleDetector.within3Days a.timestamp d)).map
        (fun _ => EnsembleDetector.mkHighConfidence a) := by
  induction ds with
  | nil => rfl
  | cons d rest ih =>
    unfold EnsembleDetector.scanChangepoints
    cases hw : EnsembleDetector.within3Days a.timestamp d with
    | true => simp [List.find?, hw]
    | false => simp [List.find?, hw, ih]

/-- C3: the high-confidence list of `EnsembleDetector.detect` pairs
each baseline alert with the first change-point event (in event order)
whose date is within three days (inclusive, absolute difference) of the
alert timestamp — at most one record per alert — and consequently the
high-confidence count never exceeds the baseline alert count
(`total_anomalies`). -/
theorem ensemble_first_match_and_count (sq : ℚ → ℚ)
    (env : Option (List ℚ → List ℕ)) (bcfg : BaselineDetector.Config)
    (ccfg : ChangepointDetector.Config) (value_col : String)
    (time_series : List Row) :
    (EnsembleDetector.detect sq env bcfg ccfg value_col
        time_series).high_confidence_anomalies =
      (EnsembleDetector.detect sq env bcfg ccfg value_col
          time_series).baseline_anomalies.filterMap (fun a =>
        (((EnsembleDetector.detect sq env bcfg ccfg value_col
              time_series).changepoint_events.map (fun e => e.date)).find?
            (fun d => EnsembleDetector.within3Days a.timestamp d)).map
          (fun _ => EnsembleDetector.mkHighConfidence a)) ∧
    (EnsembleDetector.detect sq env bcfg ccfg value_col
        time_series).high_confidence_count ≤
      (EnsembleDetector.detect sq env bcfg ccfg value_col
        time_series).total_anomalies := by
  unfold EnsembleDetector.detect
  dsimp only
  constructor
  · unfold EnsembleDetector.find_overlapping_anomalies
    dsimp only
    apply List.filterMap_congr
    intro a ha
    exact scanChangepoints_eq_find a _
  · unfold EnsembleDetector.find_overlapping_anomalies
    dsimp only
    exact List.length_filterMap_le _ _

/-- C5 witness: instantiated at magnitudes 30 and 60. -/
theorem severity_table_shared_monotone_witness :
    ((BaselineDetector.calculate_severity 30 = "critical" ↔ (100 : ℚ) ≤ 30) ∧
     (BaselineDetector.calculate_severity 30 = "high" ↔ (50 : ℚ) ≤ 30 ∧ (30 : ℚ) < 100) ∧
     (BaselineDetector.calculate_severity 30 = "medium" ↔ (25 : ℚ) ≤ 30 ∧ (30 : ℚ) < 50) ∧
     (BaselineDetector.calculate_severity 30 = "low" ↔ (30 : ℚ) < 25)) ∧
    ChangepointDetector.calculate_change_severity 30 =
      BaselineDetector.calculate_severity 30 ∧
    sevRank (BaselineDetector.calculate_severity 30) ≤
      sevRank (BaselineDetector.calculate_severity 60) :=
  severity_table_shared_monotone 30 60 (by norm_num) (by norm_num)

/-- One step of the fallback flagging loop flags the same index as the
spec's rule instantiated with spacing bound 7. -/
theorem fallbackStep_index (dates : List ℤ) (vals : List ℚ)
    (events : List ChangePointEvent) (idx : ℕ) :
    (ChangepointDetector.fallbackStep dates vals events idx).map (fun e => e.index) =
      ChangepointDetector.specStep 7 vals (events.map (fun e => e.index)) idx := by
  unfold ChangepointDetector.fallbackStep ChangepointDetector.specStep
  cases h7 : rollingMean 7 4 vals idx with
  | none => rfl
  | some ma7 =>
    cases h30 : rollingMean 30 14 vals idx with
    | none => rfl
    | some ma30 =>
      dsimp only
      by_cases h0 : ma30 = 0
      · rw [if_pos h0, if_pos h0]
      · rw [if_neg h0, if_neg h0]
        by_cases hdev : |(ma7 - ma30) / ma30 * 100| > 30
        · rw [if_pos hdev, if_pos hdev, List.getLast?_map]
          cases hl : events.getLast? with
          | none => simp
          | some last =>
            dsimp only [Option.map]
            by_cases hsp : idx - last.index > 7
            · rw [if_pos hsp, if_pos hsp]
              simp
            · rw [if_neg hsp, if_neg hsp]
        · rw [if_neg hdev, if_neg hdev]

/-- Folding the fallback flagging loop produces, index-wise, the
spec's rule with spacing bound 7, from any accumulator. -/
theorem fallback_fold_index (dates : List ℤ) (vals : List ℚ) (l : List ℕ)
    (events : List ChangePointEvent) :
    (l.foldl (ChangepointDetector.fallbackStep dates vals) events).map
        (fun e => e.index) =
      l.foldl (ChangepointDetector.specStep 7 vals)
        (events.map (fun e => e.index)) := by
  induction l generalizing events with
  | nil => rfl
  | cons i rest ih =>
    rw [List.foldl_cons, List.foldl_cons, ih, fallbackStep_index]

/-- C4 amended: the fallback change detection flags exactly the indices
given by the spec's flagging rule with the spacing bound fixed at 7
(not `min_segment_length`), and a series of fewer than 14 points yields
an empty result. -/
theorem fallback_flagging_spec (time_series : List Row) :
    (ChangepointDetector.simple_change_detection time_series).map (fun e => e.index) =
      ChangepointDetector.specFallbackIndices 7 time_series ∧
    (time_series.length < 14 →
      ChangepointDetector.simple_change_detection time_series = []) := by
  constructor
  · unfold ChangepointDetector.simple_change_detection
      ChangepointDetector.specFallbackIndices
    by_cases h : time_series.length < 14
    · rw [if_pos h, if_pos h]
      rfl
    · rw [if_neg h, if_neg h]
      exact fallback_fold_index _ _ _ []
  · intro h
    unfold ChangepointDetector.simple_change_detection
    rw [if_pos h]

/-- C4 witness: the equality of flagged indices on the step series, and
the empty result on a three-point series. -/
theorem fallback_flagging_spec_witness :
    (ChangepointDetector.simple_change_detection stepRows19).map (fun e => e.index) =
      ChangepointDetector.specFallbackIndices 7 stepRows19 ∧
    ChangepointDetector.simple_change_detection rows3 = [] :=
  ⟨(fallback_flagging_spec stepRows19).1, (fallback_flagging_spec rows3).2 (by decide)⟩

/-- C4 counterexample: with the default `min_segment_length = 3` the
spec's spacing rule flags indices 14 and 18 of the step series (the 30%
trigger holds at 18 and 18 − 14 > 3), but the code flags only index 14:
its spacing bound is the fixed constant 7, not `min_segment_length`. -/
theorem fallback_flagging_counterexample :
    (ChangepointDetector.simple_change_detection stepRows19).map (fun e => e.index) =
      [14] ∧
    ChangepointDetector.specFallbackIndices
      ChangepointDetector.defaultConfig.min_segment_length stepRows19 = [14, 18] ∧
    (ChangepointDetector.simple_change_detection stepRows19).map (fun e => e.index) ≠
      ChangepointDetector.specFallbackIndices
        ChangepointDetector.defaultConfig.min_segment_length stepRows19 :=
  ⟨by decide, by decide, by decide⟩

/-- Any alert produced by `BaselineDetector.detect` whose expected
value (rolling mean) is not positive carries deviation percent 0. -/
theorem baseline_deviation_zero_of_nonpos (cfg : BaselineDetector.Config)
    (sq : ℚ → ℚ) (value_col : String) (time_series : List Row) (a : AnomalyAlert)
    (ha : a ∈ BaselineDetector.detect cfg sq value_col time_series)
    (h0 : a.expected_value ≤ 0) : a.deviation_percent = 0 := by
  unfold BaselineDetector.detect at ha
  split at ha
  · exact absurd ha (List.not_mem_nil a)
  · obtain ⟨i, hi, hf⟩ := List.mem_filterMap.mp ha
    unfold BaselineDetector.anomalyAt at hf
    split at hf
    · simp at hf
    · split at hf
      · simp at hf
      · dsimp only at hf
        split at hf
        · injection hf with hf
          subst hf
          dsimp only at h0 ⊢
          rw [if_neg (by linarith)]
        · simp at hf

/-- Any event built by the primary-path event loop whose before-mean is
not positive carries change percent 0. -/
theorem buildEvents_change_percent_zero (dates : List ℤ) (signal : List ℚ)
    (cps : List ℕ) (e : ChangePointEvent)
    (he : e ∈ ChangepointDetector.buildChangePointEvents dates signal cps)
    (hb : e.before_mean ≤ 0) : e.change_percent = 0 := by
  obtain ⟨cp, hcp, hf⟩ := List.mem_filterMap.mp he
  dsimp only [ChangepointDetector.buildChangePointEvents] at hf
  split at hf
  · simp at hf
  · injection hf with hf
    subst hf
    dsimp only at hb ⊢
    rw [if_neg (by linarith)]

/-- One step of the fallback loop preserves the invariant that every
accumulated event has a nonzero before-mean: indices with a zero
30-point average are skipped before any event is built. -/
theorem fallbackStep_before_mean_ne (dates : List ℤ) (vals : List ℚ)
    (events : List ChangePointEvent) (idx : ℕ)
    (hev : ∀ e ∈ events, e.before_mean ≠ 0) :
    ∀ e ∈ ChangepointDetector.fallbackStep dates vals events idx,
      e.before_mean ≠ 0 := by
  intro e
  unfold ChangepointDetector.fallbackStep
  cases h7 : rollingMean 7 4 vals idx with
  | none => exact hev e
  | some ma7 =>
    cases h30 : rollingMean 30 14 vals idx with
    | none => exact hev e
    | some ma30 =>
      dsimp only
      by_cases h0 : ma30 = 0
      · rw [if_pos h0]
        exact hev e
      · rw [if_neg h0]
        by_cases hdev : |(ma7 - ma30) / ma30 * 100| > 30
        · rw [if_pos hdev]
          cases hl : events.getLast? with
          | none =>
            dsimp only
            intro he
            rcases List.mem_append.mp he with h | h
            · exact hev e h
            · rw [List.mem_singleton] at h
              subst h
              exact h0
          | some last =>
            dsimp only
            by_cases hsp : idx - last.index > 7
            · rw [if_pos hsp]
              intro he
              rcases List.mem_append.mp he with h | h
              · exact hev e h
              · rw [List.mem_singleton] at h
                subst h
                exact h0
            · rw [if_neg hsp]
              exact hev e
        · rw [if_neg hdev]
          exact hev e

/-- The fold of the fallback loop preserves the nonzero before-mean
invariant. -/
theorem fallback_fold_before_mean_ne (dates : List ℤ) (vals : List ℚ)
    (l : List ℕ) (events : List ChangePointEvent)
    (hev : ∀ e ∈ events, e.before_mean ≠ 0) :
    ∀ e ∈ l.foldl (ChangepointDetector.fallbackStep dates vals) events,
      e.before_mean ≠ 0 := by
  induction l generalizing events with
  | nil => exact hev
  | cons i rest ih =>
    rw [List.foldl_cons]
    exact ih _ (fallbackStep_before_mean_ne dates vals events i hev)

/-- Every event of the fallback change detection has a nonzero
before-mean (a zero 30-point average is skipped). -/
theorem simple_change_before_mean_ne (time_series : List Row) (e : ChangePointEvent)
    (he : e ∈ ChangepointDetector.simple_change_detection time_series) :
    e.before_mean ≠ 0 := by
  unfold ChangepointDetector.simple_change_detection at he
  split at he
  · exact absurd he (List.not_mem_nil e)
  · exact fallback_fold_before_mean_ne _ _ _ [] (by simp) e he

/-- C6 amended: a baseline alert whose expected value is zero or
negative carries deviation percent 0; a primary-path change event whose
before-mean is zero or negative carries change percent 0; and in the
fallback path an index whose 30-point average is zero is skipped (every
produced event has a nonzero before-mean) — but a fallback event with a
negative before-mean keeps the directly computed, possibly nonzero,
change percent.  No division error is raised in any of these cases. -/
theorem degenerate_denominator_guards (cfg : BaselineDetector.Config)
    (sq : ℚ → ℚ) (value_col : String) (series1 series2 : List Row)
    (a : AnomalyAlert) (dates : List ℤ) (signal : List ℚ) (cps : List ℕ)
    (e1 e2 : ChangePointEvent)
    (ha : a ∈ BaselineDetector.detect cfg sq value_col series1)
    (ha0 : a.expected_value ≤ 0)
    (he1 : e1 ∈ ChangepointDetector.buildChangePointEvents dates signal cps)
    (he1b : e1.before_mean ≤ 0)
    (he2 : e2 ∈ ChangepointDetector.simple_change_detection series2) :
    a.deviation_percent = 0 ∧ e1.change_percent = 0 ∧ e2.before_mean ≠ 0 :=
  ⟨baseline_deviation_zero_of_nonpos cfg sq value_col series1 a ha ha0,
   buildEvents_change_percent_zero dates signal cps e1 he1 he1b,
   simple_change_before_mean_ne series2 e2 he2⟩

/-- C6 witness: a negative-mean spike alert with deviation 0, a
primary-path event with negative before-mean and change percent 0, and
a fallback event with nonzero (negative) before-mean. -/
theorem degenerate_denominator_guards_witness :
    ((BaselineDetector.detect BaselineDetector.defaultConfig zeroSqrt ("cost")
        negSpikeRows7).getD 0 default).deviation_percent = 0 ∧
    ((ChangepointDetector.buildChangePointEvents [0, 1] [-5, 10] [1]).getD 0
        default).change_percent = 0 ∧
    ((ChangepointDetector.simple_change_detection negStepRows19).getD 0
        default).before_mean ≠ 0 :=
  degenerate_denominator_guards BaselineDetector.defaultConfig zeroSqrt ("cost")
    negSpikeRows7 negStepRows19 _ [0, 1] [-5, 10] [1] _ _
    (by decide) (by decide) (by decide) (by decide) (by decide)

/-- C6 counterexample: on the negative step series the fallback path
produces an event whose before-mean is negative and whose change
percent is not 0 (the code only skips a zero 30-point average; a
negative one is divided by directly). -/
theorem fallback_negative_before_mean_counterexample :
    (ChangepointDetector.simple_change_detection negStepRows19).length = 1 ∧
    ((ChangepointDetector.simple_change_detection negStepRows19).getD 0
        default).before_mean ≤ 0 ∧
    ((ChangepointDetector.simple_change_detection negStepRows19).getD 0
        default).change_percent ≠ 0 :=
  ⟨by decide, by decide, by decide⟩

/-- C8 amended: the under-2×`min_segment_length` guard yields an empty
result in the solver (primary) path; the import-failure fallback path
instead applies only its own under-14 guard, so the 2× precondition is
honoured there exactly when 2×`min_segment_length` is at most 14. -/
theorem changepoint_insufficient_guards (pelt : List ℚ → List ℕ)
    (cfg1 cfg2 : ChangepointDetector.Config)
    (series1 series2 series3 : List Row)
    (h1 : series1.length < cfg1.min_segment_length * 2)
    (h2 : series2.length < 14)
    (h3 : cfg2.min_segment_length * 2 ≤ 14)
    (h4 : series3.length < cfg2.min_segment_length * 2) :
    ChangepointDetector.detect (some pelt) cfg1 series1 = [] ∧
    ChangepointDetector.simple_change_detection series2 = [] ∧
    ChangepointDetector.detect none cfg2 series3 = [] := by
  refine ⟨?_, ?_, ?_⟩
  · unfold ChangepointDetector.detect
    dsimp only
    rw [if_pos h1]
  · unfold ChangepointDetector.simple_change_detection
    rw [if_pos h2]
  · show ChangepointDetector.simple_change_detection series3 = []
    unfold ChangepointDetector.simple_change_detection
    rw [if_pos (by omega)]

/-- C8 witness: a three-point series is empty in the primary path, in
the fallback, and in the import-failure path under the default
configuration. -/
theorem changepoint_insufficient_guards_witness :
    ChangepointDetector.detect (some (fun _ => []))
      ChangepointDetector.defaultConfig rows3 = [] ∧
    ChangepointDetector.simple_change_detection rows3 = [] ∧
    ChangepointDetector.detect none ChangepointDetector.defaultConfig rows3 = [] :=
  changepoint_insufficient_guards (fun _ => []) ChangepointDetector.defaultConfig
    ChangepointDetector.defaultConfig rows3 rows3 rows3
    (by decide) (by decide) (by decide) (by decide)

/-- C8 counterexample: with `min_segment_length = 10` the 19-point step
series is below the 2× threshold, yet the import-failure path (which
runs the fallback before any such check) returns a nonempty result. -/
theorem fallback_skips_length_guard_counterexample :
    stepRows19.length < 10 * 2 ∧
    ChangepointDetector.detect none ⟨10, 10⟩ stepRows19 ≠ [] :=
  ⟨by decide, by decide⟩

/-- C9 amended: the mapping returned by `detect_by_dimension` has an
entry exactly for those distinct dimension values whose partition
meets `min_data_points` AND whose detection yields at least one alert;
the entry is the partition's alert list.  Partitions below the minimum
or with no alerts are omitted. -/
theorem detect_by_dimension_mem_iff (cfg : BaselineDetector.Config)
    (sq : ℚ → ℚ) (dimension_col value_col : String) (time_series : List Row)
    (v : String) (alerts : List AnomalyAlert) :
    (v, alerts) ∈ BaselineDetector.detect_by_dimension cfg sq dimension_col
        value_col time_series ↔
      (v ∈ BaselineDetector.uniqueFirst
          (time_series.map (BaselineDetector.dimValue dimension_col)) ∧
       cfg.min_data_points ≤ (time_series.filter
          (fun r => BaselineDetector.dimValue dimension_col r == v)).length ∧
       BaselineDetector.detect cfg sq value_col (time_series.filter
          (fun r => BaselineDetector.dimValue dimension_col r == v)) ≠ [] ∧
       alerts = BaselineDetector.detect cfg sq value_col (time_series.filter
          (fun r => BaselineDetector.dimValue dimension_col r == v))) := by
  unfold BaselineDetector.detect_by_dimension
  rw [List.mem_filterMap]
  constructor
  · rintro ⟨u, hu, hf⟩
    dsimp only at hf
    split at hf
    · split at hf
      · simp at hf
      · injection hf with hf
        rw [Prod.mk.injEq] at hf
        obtain ⟨rfl, rfl⟩ := hf
        rename_i hlen hne
        exact ⟨hu, hlen, by simpa [List.isEmpty_iff] using hne, rfl⟩
    · simp at hf
  · rintro ⟨hu, hlen, hne, rfl⟩
    refine ⟨v, hu, ?_⟩
    dsimp only
    rw [if_pos hlen, if_neg (by simpa [List.isEmpty_iff] using hne)]

/-- C9 counterexample: the service partition of the constant series has
exactly `min_data_points` rows and its dimension value is present, yet
the returned mapping is empty because detection produced no alerts —
the claim's "possibly empty" entry is omitted. -/
theorem detect_by_dimension_omits_empty_counterexample :
    BaselineDetector.detect_by_dimension BaselineDetector.defaultConfig zeroSqrt
      ("service") ("cost") svcRows7 = [] ∧
    (svcRows7.filter
        (fun r => BaselineDetector.dimValue ("service") r == ("svcA"))).length =
      BaselineDetector.defaultConfig.min_data_points ∧
    ("svcA") ∈ BaselineDetector.uniqueFirst
        (svcRows7.map (BaselineDetector.dimValue ("service"))) :=
  ⟨by decide, by decide, by decide⟩

